import Mathlib

/-!
Verification of the ACES EXR save node (`aces_exr_save_ocio.py`).

The development shallowly embeds the node's color-conversion pipeline and its
OCIO-config resolution/caching logic.  Pixel samples are modelled as exact real
numbers; numpy arrays as a shape plus a flat row-major data list; the
filesystem, the network and the external EXR writer as explicit state / oracle
functions threaded through the save operation.  Fallible numpy operations
(`reshape(-1, 3)` on a buffer whose size is not a multiple of 3 raises a
`ValueError`) are modelled with `Except`.
-/

namespace ACESEXR

/-- A numpy/torch style n-dimensional array: a shape together with the flat
row-major list of samples. -/
structure NDArray where
  shape : List Nat
  data : List ℝ

/-- A 3x3 color conversion matrix, row major. -/
structure Mat3 where
  m00 : ℝ
  m01 : ℝ
  m02 : ℝ
  m10 : ℝ
  m11 : ℝ
  m12 : ℝ
  m20 : ℝ
  m21 : ℝ
  m22 : ℝ

noncomputable section

/-- The `self.SRGB_TO_ACES2065_MATRIX` from the node's constructor. -/
def SRGB_TO_ACES2065_MATRIX : Mat3 :=
  ⟨0.4395677, 0.3831666, 0.1772656,
   0.0897923, 0.8134201, 0.0967876,
   0.0175439, 0.1115623, 0.8708938⟩

/-- The `self.ACES2065_TO_ACESCG_MATRIX` from the node's constructor. -/
def ACES2065_TO_ACESCG_MATRIX : Mat3 :=
  ⟨1.451439316, -0.236510746, -0.214928570,
   -0.076553773, 1.176229700, -0.099675927,
   0.008316148, -0.006032449, 0.997716301⟩

/-- The per-sample branch of `srgb_to_linear`'s `np.where`: `v / 12.92` when
`v <= 0.04045`, else `((v + 0.055) / 1.055) ** 2.4`. -/
def srgbLin (v : ℝ) : ℝ :=
  if v ≤ 0.04045 then v / 12.92 else ((v + 0.055) / 1.055) ^ (2.4 : ℝ)

/-- The `srgb_to_linear`: elementwise `np.where(image <= 0.04045, image / 12.92,
((image + 0.055) / 1.055) ** 2.4)`. -/
def srgb_to_linear (image : NDArray) : NDArray :=
  ⟨image.shape, image.data.map srgbLin⟩

/-- One row of `np.dot(flat_image, matrix.T)`: each pixel triple `p` is mapped
to the matrix-vector product `matrix · p`. -/
def mat3apply (m : Mat3) (p : ℝ × ℝ × ℝ) : ℝ × ℝ × ℝ :=
  (m.m00 * p.1 + m.m01 * p.2.1 + m.m02 * p.2.2,
   m.m10 * p.1 + m.m11 * p.2.1 + m.m12 * p.2.2,
   m.m20 * p.1 + m.m21 * p.2.1 + m.m22 * p.2.2)

end

/-- The `image.reshape(-1, 3)` viewed as grouping the flat sample list into
consecutive triples (only used under the divisibility guard). -/
def chunk3 : List ℝ → List (ℝ × ℝ × ℝ)
  | a :: b :: c :: rest => (a, b, c) :: chunk3 rest
  | _ => []

/-- The `transformed.reshape(original_shape)` viewed as flattening the triples
back into the row-major sample list. -/
def flatten3 : List (ℝ × ℝ × ℝ) → List ℝ
  | [] => []
  | (a, b, c) :: rest => a :: b :: c :: flatten3 rest

noncomputable section

/-- The `matrix_transform`: `image.reshape(-1, 3)`, `np.dot(flat_image, matrix.T)`,
reshape back.  numpy's reshape raises `ValueError` when the number of samples
is not a multiple of 3; that exception is modelled as `Except.error`. -/
def matrix_transform (image : NDArray) (matrix : Mat3) : Except String NDArray :=
  if image.data.length % 3 = 0 then
    Except.ok ⟨image.shape, flatten3 ((chunk3 image.data).map (mat3apply matrix))⟩
  else
    Except.error ("cannot reshape array of size " ++ toString image.data.length ++
      " into shape (3)")

/-- The `convert_colorspace`: dispatch on the `(input_cs, output_cs)` string pair,
returning the converted buffer together with the description string. -/
def convert_colorspace (image_array : NDArray) (input_cs output_cs : String) :
    Except String (NDArray × String) :=
  if input_cs = output_cs then
    Except.ok (image_array, "Без конвертации")
  else if input_cs = "sRGB" ∧ output_cs = "ACES2065-1" then do
    let result ← matrix_transform (srgb_to_linear image_array) SRGB_TO_ACES2065_MATRIX
    Except.ok (result, "Matrix: sRGB -> Linear -> ACES2065-1")
  else if input_cs = "ACES2065-1" ∧ output_cs = "ACEScg" then do
    let result ← matrix_transform image_array ACES2065_TO_ACESCG_MATRIX
    Except.ok (result, "Matrix: ACES2065-1 -> ACEScg")
  else if input_cs = "sRGB" ∧ output_cs = "ACEScg" then do
    let aces2065 ← matrix_transform (srgb_to_linear image_array) SRGB_TO_ACES2065_MATRIX
    let result ← matrix_transform aces2065 ACES2065_TO_ACESCG_MATRIX
    Except.ok (result, "Matrix: sRGB -> Linear -> ACES2065-1 -> ACEScg")
  else if input_cs = "Linear sRGB" ∧ output_cs = "ACES2065-1" then do
    let result ← matrix_transform image_array SRGB_TO_ACES2065_MATRIX
    Except.ok (result, "Matrix: Linear sRGB -> ACES2065-1")
  else
    Except.ok (image_array, "Без конвертации (" ++ input_cs ++ " -> " ++ output_cs ++
      " недоступна)")

/-- The `tensor.squeeze(0)`: drop a leading dimension of size 1 (torch leaves the
tensor unchanged otherwise); the flat data is unaffected. -/
def squeeze0 (t : NDArray) : NDArray :=
  match t.shape with
  | 1 :: rest => ⟨rest, t.data⟩
  | _ => t

/-- The `tensor_to_numpy`: squeeze a 4-dimensional tensor's batch dimension, then
`np.clip(array, 0.0, None)` (an elementwise lower clamp at 0). -/
def tensor_to_numpy (tensor : NDArray) : NDArray :=
  let t := if tensor.shape.length = 4 then squeeze0 tensor else tensor
  ⟨t.shape, t.data.map (fun v => max v 0)⟩

end

/-! ### MD5 (the `hashlib.md5` collaborator used for cache filenames)

`download_ocio_config` derives cache filenames from
`hashlib.md5(url.encode()).hexdigest()[:8]`.  MD5 is implemented here in full
(RFC 1321) over byte lists, with 32-bit words as `Nat` reduced mod `2^32`. -/

/-- Truncate to a 32-bit word. -/
def w32 (x : Nat) : Nat := x % 4294967296

/-- 32-bit left rotation (input assumed `< 2^32`). -/
def rotl32 (x n : Nat) : Nat := w32 ((x <<< n) ||| (x >>> (32 - n)))

/-- MD5 round function F. -/
def md5F (b c d : Nat) : Nat := (b &&& c) ||| ((4294967295 ^^^ b) &&& d)

/-- MD5 round function G. -/
def md5G (b c d : Nat) : Nat := (d &&& b) ||| ((4294967295 ^^^ d) &&& c)

/-- MD5 round function H. -/
def md5H (b c d : Nat) : Nat := b ^^^ c ^^^ d

/-- MD5 round function I. -/
def md5I (b c d : Nat) : Nat := c ^^^ (b ||| (4294967295 ^^^ d))

/-- MD5 per-operation shift amounts. -/
def md5S : List Nat :=
  [7, 12, 17, 22, 7, 12, 17, 22, 7, 12, 17, 22, 7, 12, 17, 22,
   5, 9, 14, 20, 5, 9, 14, 20, 5, 9, 14, 20, 5, 9, 14, 20,
   4, 11, 16, 23, 4, 11, 16, 23, 4, 11, 16, 23, 4, 11, 16, 23,
   6, 10, 15, 21, 6, 10, 15, 21, 6, 10, 15, 21, 6, 10, 15, 21]

/-- MD5 sine-derived additive constants. -/
def md5K : List Nat :=
  [3614090360, 3905402710, 606105819, 3250441966, 4118548399, 1200080426, 2821735955, 4249261313,
   1770035416, 2336552879, 4294925233, 2304563134, 1804603682, 4254626195, 2792965006, 1236535329,
   4129170786, 3225465664, 643717713, 3921069994, 3593408605, 38016083, 3634488961, 3889429448,
   568446438, 3275163606, 4107603335, 1163531501, 2850285829, 4243563512, 1735328473, 2368359562,
   4294588738, 2272392833, 1839030562, 4259657740, 2763975236, 1272893353, 4139469664, 3200236656,
   681279174, 3936430074, 3572445317, 76029189, 3654602809, 3873151461, 530742520, 3299628645,
   4096336452, 1126891415, 2878612391, 4237533241, 1700485571, 2399980690, 4293915773, 2240044497,
   1873313359, 4264355552, 2734768916, 1309151649, 4149444226, 3174756917, 718787259, 3951481745]

/-- Message-word index used by operation `i`. -/
def md5g (i : Nat) : Nat :=
  if i < 16 then i
  else if i < 32 then (5 * i + 1) % 16
  else if i < 48 then (3 * i + 5) % 16
  else (7 * i) % 16

/-- Round function used by operation `i`. -/
def md5f (i b c d : Nat) : Nat :=
  if i < 16 then md5F b c d
  else if i < 32 then md5G b c d
  else if i < 48 then md5H b c d
  else md5I b c d

/-- One MD5 operation on the state `(a, b, c, d)` given the 16 message words. -/
def md5Step (M : List Nat) (st : Nat × Nat × Nat × Nat) (i : Nat) :
    Nat × Nat × Nat × Nat :=
  (st.2.2.2,
   w32 (st.2.1 +
     rotl32 (w32 (md5f i st.2.1 st.2.2.1 st.2.2.2 + st.1 + md5K.getD i 0 +
       M.getD (md5g i) 0)) (md5S.getD i 0)),
   st.2.1, st.2.2.1)

/-- Process one 512-bit block: 64 operations, then add into the running state. -/
def md5Block (st : Nat × Nat × Nat × Nat) (M : List Nat) : Nat × Nat × Nat × Nat :=
  let r := (List.range 64).foldl (md5Step M) st
  (w32 (st.1 + r.1), w32 (st.2.1 + r.2.1), w32 (st.2.2.1 + r.2.2.1),
   w32 (st.2.2.2 + r.2.2.2))

/-- The `k` little-endian bytes of `n`. -/
def leBytes (k n : Nat) : List Nat := (List.range k).map (fun i => (n >>> (8 * i)) % 256)

/-- MD5 padding: a `0x80` byte, zeros to 56 mod 64, then the 64-bit bit length. -/
def md5Pad (msg : List Nat) : List Nat :=
  msg ++ [128] ++ List.replicate ((120 - ((msg.length + 1) % 64)) % 64) 0 ++
    leBytes 8 (msg.length * 8)

/-- Interpret a 64-byte chunk as 16 little-endian 32-bit words. -/
def bytesToWords (chunk : List Nat) : List Nat :=
  (List.range 16).map (fun j =>
    chunk.getD (4 * j) 0 + 256 * chunk.getD (4 * j + 1) 0 +
      65536 * chunk.getD (4 * j + 2) 0 + 16777216 * chunk.getD (4 * j + 3) 0)

/-- Split the padded message into 64-byte chunks. -/
def md5Chunks (padded : List Nat) : List (List Nat) :=
  (List.range (padded.length / 64)).map (fun i => (padded.drop (64 * i)).take 64)

/-- Full MD5: 16 digest bytes of a byte-list message. -/
def md5Bytes (msg : List Nat) : List Nat :=
  let st := (md5Chunks (md5Pad msg)).foldl
    (fun st chunk => md5Block st (bytesToWords chunk))
    (1732584193, 4023233417, 2562383102, 271733878)
  leBytes 4 st.1 ++ leBytes 4 st.2.1 ++ leBytes 4 st.2.2.1 ++ leBytes 4 st.2.2.2

/-- Lowercase hex digit. -/
def hexDigit (n : Nat) : Char := if n < 10 then Char.ofNat (48 + n) else Char.ofNat (87 + n)

/-- Two lowercase hex digits of a byte. -/
def byteHex (b : Nat) : List Char := [hexDigit (b / 16), hexDigit (b % 16)]

/-- The characters of `hashlib.md5(s.encode()).hexdigest()` (the node's URLs
are ASCII, so UTF-8 bytes coincide with the code points). -/
def md5HexChars (s : String) : List Char := ((md5Bytes (s.toList.map Char.toNat)).map byteHex).flatten

/-- The `hashlib.md5(s.encode()).hexdigest()`. -/
def md5Hexdigest (s : String) : String := String.mk (md5HexChars s)

/-- The `url_hash = hashlib.md5(url.encode()).hexdigest()[:8]`. -/
def url_hash8 (url : String) : String := String.mk ((md5HexChars url).take 8)

/-- The `cache_filename = f"ocio_{url_hash}_{filename_hint}"`. -/
def cache_filename (url hint : String) : String :=
  "ocio_" ++ url_hash8 url ++ "_" ++ hint

/-! ### Filesystem, network and the config resolver -/

/-- The `os.path.join` (for the argument shapes arising here: the second component
wins when absolute, otherwise a single separator is inserted). -/
def ospath_join (a b : String) : String :=
  if b.toList.headD ' ' == '/' then b
  else if a = "" then b
  else if a.toList.getLastD ' ' == '/' then a ++ b
  else a ++ "/" ++ b

/-- The visible on-disk state: a list of `(path, size in bytes)` entries. -/
structure FS where
  files : List (String × Nat)
deriving DecidableEq

/-- The `os.path.exists`. -/
def FS.existsPath (fs : FS) (p : String) : Bool :=
  fs.files.any (fun e => e.1 == p)

/-- The `open(p, 'wb'); f.write(body)`: create or overwrite `p` with `n` bytes. -/
def FS.writeFile (fs : FS) (p : String) (n : Nat) : FS :=
  ⟨(p, n) :: fs.files.filter (fun e => !(e.1 == p))⟩

/-- The `os.remove`. -/
def FS.removeFile (fs : FS) (p : String) : FS :=
  ⟨fs.files.filter (fun e => !(e.1 == p))⟩

/-- The `download_ocio_config`, with the filesystem threaded explicitly and the
network abstracted as `net : url ↦ Option (body size)` — `none` covers
`urllib.error.HTTPError`, `urllib.error.URLError` and every other fetch
exception, all of which the source catches and maps to `None`.  The last
component counts the network requests performed by the call.  The body itself
is summarised by its byte count, the only aspect the source ever inspects. -/
def download_ocio_config (net : String → Option Nat) (cacheDir : String) (fs : FS)
    (url filename_hint : String) : FS × Option String × Nat :=
  if fs.existsPath (ospath_join cacheDir (cache_filename url filename_hint)) then
    (fs, some (ospath_join cacheDir (cache_filename url filename_hint)), 0)
  else
    match net url with
    | none => (fs, none, 1)
    | some size =>
      if size < 1000 then
        ((fs.writeFile (ospath_join cacheDir (cache_filename url filename_hint)) size).removeFile
          (ospath_join cacheDir (cache_filename url filename_hint)), none, 1)
      else
        (fs.writeFile (ospath_join cacheDir (cache_filename url filename_hint)) size,
          some (ospath_join cacheDir (cache_filename url filename_hint)), 1)

/-- URL of the "ACES 1.3 CG Config" preset (also the `Auto` fallback, where the
source indexes `self.preset_ocio_urls` directly). -/
def aces13_cg_url : String :=
  "https://github.com/AcademySoftwareFoundation/OpenColorIO-Config-ACES/releases/download/v2.1.0-v2.2.0/cg-config-v2.2.0_aces-v1.3_ocio-v2.4.ocio"

/-- The `self.preset_ocio_urls` as a lookup (`dict.get`). -/
def preset_ocio_urls (preset : String) : Option String :=
  if preset = "ACES 1.3 CG Config" then some aces13_cg_url
  else if preset = "ACES 1.3 Studio Config" then
    some "https://github.com/AcademySoftwareFoundation/OpenColorIO-Config-ACES/releases/download/v2.1.0-v2.2.0/studio-config-v2.2.0_aces-v1.3_ocio-v2.4.ocio"
  else if preset = "ACES 2.0 CG Config" then
    some "https://github.com/AcademySoftwareFoundation/OpenColorIO-Config-ACES/releases/download/v3.0.0/cg-config-v3.0.0_aces-v2.0_ocio-v2.4.ocio"
  else if preset = "ACES 2.0 Studio Config" then
    some "https://github.com/AcademySoftwareFoundation/OpenColorIO-Config-ACES/releases/download/v3.0.0/studio-config-v3.0.0_aces-v2.0_ocio-v2.4.ocio"
  else none

/-- The `Auto` probe list (`auto_paths`); `os.path.expanduser` is resolved
against the given home directory. -/
def auto_paths (homeDir : String) : List String :=
  ["./ocio_configs/cg-config-v2.2.0_aces-v1.3_ocio-v2.4.ocio",
   "./ocio_configs/studio-config-v2.2.0_aces-v1.3_ocio-v2.4.ocio",
   "./ocio_configs/config.ocio",
   "./ocio_configs/aces_1.2/config.ocio",
   homeDir ++ "/ComfyUI/ocio_configs/cg-config-v2.2.0_aces-v1.3_ocio-v2.4.ocio"]

/-- The `find_or_download_ocio_config`.  Python's `and path:`/`and url:` truthiness
tests become emptiness tests on the strings. -/
def find_or_download_ocio_config (net : String → Option Nat) (cacheDir homeDir : String)
    (fs : FS) (source path url preset : String) : FS × Option String :=
  if source = "Local Path" ∧ path ≠ "" then
    (fs, if fs.existsPath path then some path else none)
  else if source = "URL" ∧ url ≠ "" then
    let r := download_ocio_config net cacheDir fs url "config.ocio"
    (r.1, r.2.1)
  else if source = "Preset" then
    match preset_ocio_urls preset with
    | some preset_url =>
      let r := download_ocio_config net cacheDir fs preset_url
        ((preset.toLower.replace " " "_") ++ ".ocio")
      (r.1, r.2.1)
    | none => (fs, none)
  else if source = "Auto" then
    match (auto_paths homeDir).find? (fun p => fs.existsPath p) with
    | some p => (fs, some p)
    | none =>
      let r := download_ocio_config net cacheDir fs aces13_cg_url "aces13_cg.ocio"
      (r.1, r.2.1)
  else (fs, none)

/-! ### The save operation -/

/-- The external collaborators of one `save_aces_exr` call: the imaging
library's availability flag, the disk, the network, the relevant directories,
and `save_exr_aces` abstracted as an oracle from the destination filepath to
`(success, format-info-or-error string)` — faithful to the source in that
`save_exr_aces` catches every exception and returns a `(False, msg)` pair. -/
structure SaveEnv where
  oiioAvailable : Bool
  fs : FS
  net : String → Option Nat
  cacheDir : String
  outputDir : String
  homeDir : String
  write : String → Bool × String

/-- The `f"{i:05d}"`: decimal digits of `i`, left-padded with zeros to width 5. -/
def pad5 (i : Nat) : String :=
  let s := toString i
  String.mk (List.replicate (5 - s.length) '0') ++ s

/-- The per-frame output filepath of the batch loop:
`os.path.join(self.output_dir, f"{filename_prefix}_{i:05d}.exr")`. -/
def framePath (env : SaveEnv) (prefixStr : String) (i : Nat) : String :=
  ospath_join env.outputDir (prefixStr ++ "_" ++ pad5 i ++ ".exr")

/-- The `f"Frame {i+1}/{total}: {conv_info} -> {format_info}"`. -/
def frameOkMsg (i total : Nat) (convInfo fmtInfo : String) : String :=
  "Frame " ++ toString (i + 1) ++ "/" ++ toString total ++ ": " ++ convInfo ++
    " -> " ++ fmtInfo

/-- The `f"Frame {i+1}/{total}: ОШИБКА - {format_info}"`. -/
def frameErrMsg (i total : Nat) (fmtInfo : String) : String :=
  "Frame " ++ toString (i + 1) ++ "/" ++ toString total ++ ": ОШИБКА - " ++ fmtInfo

noncomputable section

/-- The `images[i]` on the batch tensor: drop the batch dimension, slice the data. -/
def tensorIndex (t : NDArray) (i : Nat) : NDArray :=
  let stride := t.shape.tail.prod
  ⟨t.shape.tail, (t.data.drop (i * stride)).take stride⟩

/-- The conversion description recorded for a buffer (second component of a
successful `convert_colorspace`; unreachable error text otherwise). -/
def convDesc (b : NDArray) (input_cs output_cs : String) : String :=
  match convert_colorspace b input_cs output_cs with
  | Except.ok r => r.2
  | Except.error e => e

/-- The report entry the batch loop records for frame `i`. -/
def frameEntry (env : SaveEnv) (images : NDArray)
    (prefixStr colorspace input_colorspace : String) (total i : Nat) : String :=
  if (env.write (framePath env prefixStr i)).1 then
    frameOkMsg i total
      (convDesc (tensor_to_numpy (tensorIndex images i)) input_colorspace colorspace)
      (env.write (framePath env prefixStr i)).2
  else
    frameErrMsg i total (env.write (framePath env prefixStr i)).2

/-- The `for i in range(total_frames)` loop of `save_aces_exr`, threading the
`saved_files`/`conversion_infos` accumulators. -/
def processFrames (env : SaveEnv) (images : NDArray)
    (prefixStr colorspace input_colorspace : String) (total : Nat) :
    List Nat → List String × List String → Except String (List String × List String)
  | [], acc => Except.ok acc
  | i :: rest, acc => do
    let r ← convert_colorspace (tensor_to_numpy (tensorIndex images i))
      input_colorspace colorspace
    if (env.write (framePath env prefixStr i)).1 then
      processFrames env images prefixStr colorspace input_colorspace total rest
        (acc.1 ++ [framePath env prefixStr i],
         acc.2 ++ [frameOkMsg i total r.2 (env.write (framePath env prefixStr i)).2])
    else
      processFrames env images prefixStr colorspace input_colorspace total rest
        (acc.1, acc.2 ++ [frameErrMsg i total (env.write (framePath env prefixStr i)).2])

/-- The `save_aces_exr`: the whole save operation.  A Python exception escaping the
call is `Except.error`; a normal return of the `(exr_path, conversion_info)`
pair is `Except.ok`.  The resolver's result (`_resolved`) only feeds log lines
in the source, so it is computed and dropped; `compression` and `pixel_type`
are forwarded only to the abstracted writer. -/
def save_aces_exr (env : SaveEnv) (images : NDArray)
    (prefixStr colorspace compression pixel_type input_colorspace
     ocio_config_source ocio_config_path ocio_config_url ocio_preset : String) :
    Except String (String × String) :=
  if env.oiioAvailable = false then
    Except.ok ("", "❌ OpenImageIO недоступен! Установите: pip install OpenImageIO или conda install -c conda-forge openimageio")
  else
    let _resolved := find_or_download_ocio_config env.net env.cacheDir env.homeDir env.fs
      ocio_config_source ocio_config_path ocio_config_url ocio_preset
    if images.shape.length = 4 ∧ 1 < images.shape.headD 0 then
      (processFrames env images prefixStr colorspace input_colorspace
          (images.shape.headD 0) (List.range (images.shape.headD 0)) ([], [])).map
        (fun acc => (acc.1.headD "", String.intercalate "\n" acc.2))
    else
      (convert_colorspace
          (tensor_to_numpy (if images.shape.length = 4 then tensorIndex images 0 else images))
          input_colorspace colorspace).map
        (fun r =>
          if (env.write (ospath_join env.outputDir (prefixStr ++ ".exr"))).1 then
            (ospath_join env.outputDir (prefixStr ++ ".exr"),
              r.2 ++ " -> " ++ (env.write (ospath_join env.outputDir (prefixStr ++ ".exr"))).2)
          else
            ("", "ОШИБКА - " ++ (env.write (ospath_join env.outputDir (prefixStr ++ ".exr"))).2))

end

theorem squeeze0_data (t : NDArray) : (squeeze0 t).data = t.data := by
  unfold squeeze0
  cases t with
  | mk s d => cases s with
    | nil => rfl
    | cons h r => cases h with
      | zero => rfl
      | succ n => cases n <;> rfl

theorem tensor_to_numpy_data (t : NDArray) :
    (tensor_to_numpy t).data = t.data.map (fun v => max v 0) := by
  unfold tensor_to_numpy
  split <;> simp [squeeze0_data]

/-- C7: `srgb_to_linear` is element-wise (it maps `srgbLin` over the samples
and leaves the shape alone), and the per-sample function returns `v / 12.92`
for `v` in `[0, 0.04045]` and `((v + 0.055) / 1.055) ^ 2.4` for `v` above
`0.04045`. -/
theorem srgb_to_linear_piecewise (buf : NDArray) :
    (srgb_to_linear buf).shape = buf.shape ∧
    (srgb_to_linear buf).data = buf.data.map srgbLin ∧
    (∀ v : ℝ, 0 ≤ v → v ≤ 0.04045 → srgbLin v = v / 12.92) ∧
    (∀ v : ℝ, 0.04045 < v → srgbLin v = ((v + 0.055) / 1.055) ^ (2.4 : ℝ)) := by
  refine ⟨rfl, rfl, ?_, ?_⟩
  · intro v _ hv
    simp [srgbLin, hv]
  · intro v hv
    simp [srgbLin, not_le.mpr hv]

/-- Witness for C7 at the concrete samples `0.04` (linear branch) and `0.5`
(power branch). -/
theorem srgb_to_linear_piecewise_witness :
    srgbLin 0.04 = 0.04 / 12.92 ∧
    srgbLin 0.5 = ((0.5 + 0.055) / 1.055) ^ (2.4 : ℝ) :=
  ⟨(srgb_to_linear_piecewise ⟨[], []⟩).2.2.1 0.04 (by norm_num) (by norm_num),
   (srgb_to_linear_piecewise ⟨[], []⟩).2.2.2 0.5 (by norm_num)⟩

/-- C3: every `(input_cs, output_cs)` pair outside the supported set falls
through to the final `else`: the buffer is returned with every value
unmodified, together with a description string naming the unsupported pair,
and no error is raised. -/
theorem convert_colorspace_unsupported (b : NDArray) (input_cs output_cs : String)
    (hne : input_cs ≠ output_cs)
    (h1 : ¬(input_cs = "sRGB" ∧ output_cs = "ACES2065-1"))
    (h2 : ¬(input_cs = "ACES2065-1" ∧ output_cs = "ACEScg"))
    (h3 : ¬(input_cs = "sRGB" ∧ output_cs = "ACEScg"))
    (h4 : ¬(input_cs = "Linear sRGB" ∧ output_cs = "ACES2065-1")) :
    convert_colorspace b input_cs output_cs =
      Except.ok (b, "Без конвертации (" ++ input_cs ++ " -> " ++ output_cs ++
        " недоступна)") := by
  unfold convert_colorspace
  rw [if_neg hne, if_neg h1, if_neg h2, if_neg h3, if_neg h4]

/-- Witness for C3 at the pair `(Rec.709, ACEScg)`. -/
theorem convert_colorspace_unsupported_witness :
    convert_colorspace ⟨[1, 1, 3], [0.25, 0.5, 0.75]⟩ "Rec.709" "ACEScg" =
      Except.ok (⟨[1, 1, 3], [0.25, 0.5, 0.75]⟩,
        "Без конвертации (" ++ "Rec.709" ++ " -> " ++ "ACEScg" ++ " недоступна)") :=
  convert_colorspace_unsupported ⟨[1, 1, 3], [0.25, 0.5, 0.75]⟩ "Rec.709" "ACEScg"
    (by decide) (by decide) (by decide) (by decide) (by decide)

/-- C9 (amended): `tensor_to_numpy` clamps each sample to `max v 0` — negative
samples become exactly 0 and samples above 1 are preserved — so its output
(the array handed to `convert_colorspace`) is element-wise non-negative. -/
theorem tensor_to_numpy_clamps (t : NDArray) :
    (tensor_to_numpy t).data = t.data.map (fun v => max v 0) ∧
    ∀ v ∈ (tensor_to_numpy t).data, 0 ≤ v := by
  refine ⟨tensor_to_numpy_data t, ?_⟩
  intro v hv
  rw [tensor_to_numpy_data] at hv
  obtain ⟨u, _, rfl⟩ := List.mem_map.mp hv
  exact le_max_right u 0

/-- Witness for C9's amended theorem at a concrete tensor holding a negative,
an above-1 and a zero sample. -/
theorem tensor_to_numpy_clamps_witness :
    (tensor_to_numpy ⟨[1, 1, 3], [-1, 2, 0]⟩).data =
      [(-1 : ℝ), 2, 0].map (fun v => max v 0) ∧
    (0 : ℝ) ≤ max (-1 : ℝ) 0 :=
  ⟨(tensor_to_numpy_clamps ⟨[1, 1, 3], [-1, 2, 0]⟩).1,
   (tensor_to_numpy_clamps ⟨[1, 1, 3], [-1, 2, 0]⟩).2 (max (-1) 0)
     (by simp [tensor_to_numpy, squeeze0])⟩

/-- Counterexample to C9 as stated: the claim asserts that every pixel array
passed on to the EXR writer is element-wise non-negative, but the array the
save loop hands to the writer is the *output* of `convert_colorspace`, and the
ACES2065-1 -> ACEScg matrix maps the (non-negative) clamped pixel `(0, 1, 0)`
to a triple whose first sample is `-0.236510746 < 0`. -/
theorem convert_colorspace_negative_output :
    convert_colorspace (tensor_to_numpy ⟨[1, 1, 3], [0, 1, 0]⟩)
        "ACES2065-1" "ACEScg" =
      Except.ok (⟨[1, 1, 3], [-0.236510746, 1.176229700, -0.006032449]⟩,
        "Matrix: ACES2065-1 -> ACEScg") ∧
    (-0.236510746 : ℝ) < 0 := by
  constructor
  · simp [convert_colorspace, tensor_to_numpy, squeeze0, matrix_transform,
      chunk3, flatten3, mat3apply, ACES2065_TO_ACESCG_MATRIX]
    norm_num
    rfl
  · norm_num

@[simp] theorem except_bind_ok_eq {ε α β} (a : α) (f : α → Except ε β) :
    (Except.ok a : Except ε α) >>= f = f a := rfl

@[simp] theorem except_bind_error_eq {ε α β} (e : ε) (f : α → Except ε β) :
    (Except.error e : Except ε α) >>= f = Except.error e := rfl

@[simp] theorem except_bindf_ok_eq {ε α β} (a : α) (f : α → Except ε β) :
    (Except.ok a : Except ε α).bind f = f a := rfl

@[simp] theorem except_bindf_error_eq {ε α β} (e : ε) (f : α → Except ε β) :
    (Except.error e : Except ε α).bind f = Except.error e := rfl

@[simp] theorem except_map_ok_eq {ε α β} (f : α → β) (a : α) :
    Except.map f (Except.ok a : Except ε α) = Except.ok (f a) := rfl

@[simp] theorem except_map_error_eq {ε α β} (f : α → β) (e : ε) :
    Except.map f (Except.error e : Except ε α) = Except.error e := rfl

@[simp] theorem except_isOk_ok {ε α} (a : α) :
    (Except.ok a : Except ε α).isOk = true := rfl

@[simp] theorem except_isOk_error {ε α} (e : ε) :
    (Except.error e : Except ε α).isOk = false := rfl

theorem flatten3_length (xs : List (ℝ × ℝ × ℝ)) :
    (flatten3 xs).length = 3 * xs.length := by
  induction xs with
  | nil => rfl
  | cons p rest ih =>
    obtain ⟨a, b, c⟩ := p
    simp [flatten3, ih]
    ring

/-- C2: on the `(sRGB, ACEScg)` pair, `convert_colorspace` is the sequential
composition `linearize`, then the sRGB -> ACES2065-1 matrix, then the
ACES2065-1 -> ACEScg matrix, and (up to the description strings) it equals
chaining the `(sRGB, ACES2065-1)` conversion with the `(ACES2065-1, ACEScg)`
conversion — there is no independently defined fused matrix. -/
theorem convert_srgb_to_acescg_composed (buf : NDArray) :
    convert_colorspace buf "sRGB" "ACEScg" =
      (do
        let aces2065 ← matrix_transform (srgb_to_linear buf) SRGB_TO_ACES2065_MATRIX
        let result ← matrix_transform aces2065 ACES2065_TO_ACESCG_MATRIX
        Except.ok (result, "Matrix: sRGB -> Linear -> ACES2065-1 -> ACEScg")) ∧
    (convert_colorspace buf "sRGB" "ACEScg").map Prod.fst =
      ((convert_colorspace buf "sRGB" "ACES2065-1").bind fun p =>
          convert_colorspace p.1 "ACES2065-1" "ACEScg").map Prod.fst := by
  constructor
  · simp [convert_colorspace]
  · have c1 : (("sRGB" : String) = "ACEScg") = False := eq_false (by decide)
    have c2 : ((("sRGB" : String) = "sRGB") ∧ (("ACEScg" : String) = "ACES2065-1")) = False :=
      eq_false (by decide)
    have c3 : ((("sRGB" : String) = "ACES2065-1") ∧ (("ACEScg" : String) = "ACEScg")) = False :=
      eq_false (by decide)
    have c4 : ((("sRGB" : String) = "sRGB") ∧ (("ACEScg" : String) = "ACEScg")) = True :=
      eq_true (by decide)
    have d1 : (("sRGB" : String) = "ACES2065-1") = False := eq_false (by decide)
    have d2 : ((("sRGB" : String) = "sRGB") ∧ (("ACES2065-1" : String) = "ACES2065-1")) = True :=
      eq_true (by decide)
    have e1 : (("ACES2065-1" : String) = "ACEScg") = False := eq_false (by decide)
    have e2 : ((("ACES2065-1" : String) = "sRGB") ∧ (("ACEScg" : String) = "ACES2065-1")) = False :=
      eq_false (by decide)
    have e3 : ((("ACES2065-1" : String) = "ACES2065-1") ∧ (("ACEScg" : String) = "ACEScg")) = True :=
      eq_true (by decide)
    simp only [convert_colorspace, c1, c2, c3, c4, d1, d2, e1, e2, e3, if_true, if_false]
    rcases hm : matrix_transform (srgb_to_linear buf) SRGB_TO_ACES2065_MATRIX with e | a
    · simp [hm]
    · simp [hm]
      rcases hm2 : matrix_transform a ACES2065_TO_ACESCG_MATRIX with er | r2 <;> simp [hm2]

theorem leBytes_length (k n : Nat) : (leBytes k n).length = k := by
  simp [leBytes]

theorem md5Bytes_length (msg : List Nat) : (md5Bytes msg).length = 16 := by
  simp [md5Bytes, leBytes_length]

theorem byteHex_flatten_length (l : List Nat) :
    ((l.map byteHex).flatten).length = 2 * l.length := by
  induction l with
  | nil => rfl
  | cons b rest ih =>
    simp [byteHex, ih]
    ring

theorem md5HexChars_length (s : String) : (md5HexChars s).length = 32 := by
  unfold md5HexChars
  rw [byteHex_flatten_length, md5Bytes_length]

theorem url_hash8_data_length (u : String) : (url_hash8 u).data.length = 8 := by
  simp [url_hash8, List.length_take, md5HexChars_length]

/-- C4 (amended): a cache filename is determined by the pair of the URL's
8-hex-character truncated MD5 digest and the filename hint — two URLs whose
truncated digests differ never collide (whatever the hints), and a given
`(url, hint)` pair always yields the same, fixed filename.  (As stated the
claim fails: distinct URLs *can* collide when their 32-bit truncated digests
coincide, and one URL fetched under two hints yields two distinct files.) -/
theorem cache_filename_keying (u1 u2 hint1 hint2 : String)
    (hdig : url_hash8 u1 ≠ url_hash8 u2) :
    cache_filename u1 hint1 ≠ cache_filename u2 hint2 ∧
    cache_filename u1 hint1 = "ocio_" ++ url_hash8 u1 ++ "_" ++ hint1 := by
  refine ⟨?_, rfl⟩
  intro h
  apply hdig
  have hd : "ocio_".data ++ ((url_hash8 u1).data ++ ("_".data ++ hint1.data)) =
      "ocio_".data ++ ((url_hash8 u2).data ++ ("_".data ++ hint2.data)) := by
    have := congrArg String.data h
    simpa [cache_filename, List.append_assoc] using this
  have hmid := List.append_cancel_left hd
  have hlen : (url_hash8 u1).data.length = (url_hash8 u2).data.length := by
    rw [url_hash8_data_length, url_hash8_data_length]
  have := (List.append_inj hmid hlen).1
  calc url_hash8 u1 = String.mk (url_hash8 u1).data := rfl
    _ = String.mk (url_hash8 u2).data := by rw [this]
    _ = url_hash8 u2 := rfl

set_option maxRecDepth 100000 in
/-- Witness for C4's amended theorem: `http://a` and `http://b` have distinct
truncated digests (`82795f11` vs `f1dccd03`), so their cache files differ. -/
theorem cache_filename_keying_witness :
    cache_filename "http://a" "config.ocio" ≠ cache_filename "http://b" "config.ocio" ∧
    cache_filename "http://a" "config.ocio" =
      "ocio_" ++ url_hash8 "http://a" ++ "_" ++ "config.ocio" :=
  cache_filename_keying "http://a" "http://b" "config.ocio" "config.ocio" (by decide)

set_option maxRecDepth 100000 in
/-- Counterexample to C4 as stated: the URLs `http://x/12155` and
`http://x/131813` are distinct, yet their MD5 digests share the first 8 hex
characters (`7d0f2544`), so under any one hint the derived cache filenames
collide. -/
theorem cache_filename_collision :
    ("http://x/12155" : String) ≠ "http://x/131813" ∧
    cache_filename "http://x/12155" "config.ocio" =
      cache_filename "http://x/131813" "config.ocio" := by
  constructor
  · decide
  · decide

theorem existsPath_writeFile (fs : FS) (p : String) (n : Nat) :
    (fs.writeFile p n).existsPath p = true := by
  simp [FS.writeFile, FS.existsPath]

theorem existsPath_removeFile (fs : FS) (p : String) :
    (fs.removeFile p).existsPath p = false := by
  unfold FS.removeFile FS.existsPath
  simp only [List.any_eq_false]
  intro e he
  have := List.of_mem_filter he
  simpa using this

/-- C5: if a `download_ocio_config` call resolved a path (first fetch succeeded
and produced a cache file, or was already cached), then a second call on the
resulting filesystem with the same URL and the same filename hint performs `0`
network requests and immediately returns the identical path (no re-validation
of the cached content). -/
theorem download_second_call_cache_hit (net : String → Option Nat)
    (cacheDir : String) (fs fs1 : FS) (url hint p : String) (c : Nat)
    (h : download_ocio_config net cacheDir fs url hint = (fs1, some p, c)) :
    download_ocio_config net cacheDir fs1 url hint = (fs1, some p, 0) := by
  unfold download_ocio_config at h ⊢
  by_cases hex : fs.existsPath (ospath_join cacheDir (cache_filename url hint)) = true
  · rw [if_pos hex] at h
    have h1 : fs = fs1 := congrArg Prod.fst h
    have hp : p = ospath_join cacheDir (cache_filename url hint) :=
      (Option.some.inj (congrArg (fun x => x.2.1) h)).symm
    subst h1
    rw [hp, if_pos hex]
  · rw [if_neg hex] at h
    cases hnet : net url with
    | none =>
      rw [hnet] at h
      simp at h
    | some size =>
      rw [hnet] at h
      by_cases hsize : size < 1000
      · simp [hsize] at h
      · simp [hsize, Prod.ext_iff] at h
        obtain ⟨h1, hp, -⟩ := h
        have hex1 : fs1.existsPath (ospath_join cacheDir (cache_filename url hint)) = true := by
          rw [← h1]
          exact existsPath_writeFile ..
        rw [← hp, if_pos hex1]

set_option maxRecDepth 400000 in
/-- Witness for C5: after a successful fetch of `u` (5000-byte body) the cache
holds `cache/ocio_7b774eff_config.ocio`, and the second call is a pure cache
hit with zero network requests. -/
theorem download_second_call_cache_hit_witness :
    download_ocio_config (fun _ => some 5000) "cache"
        (FS.mk [("cache/ocio_7b774eff_config.ocio", 5000)]) "u" "config.ocio" =
      (FS.mk [("cache/ocio_7b774eff_config.ocio", 5000)],
        some "cache/ocio_7b774eff_config.ocio", 0) :=
  download_second_call_cache_hit (fun _ => some 5000) "cache" (FS.mk []) _ "u"
    "config.ocio" _ 1 (by decide)

/-- C8: on a cache miss, when the fetch completes but the body is smaller than
1000 bytes, `download_ocio_config` deletes the just-written cache file and
returns `None` together with the file's absence — it never returns a path to
the undersized file. -/
theorem download_undersized_deleted (net : String → Option Nat) (cacheDir : String)
    (fs : FS) (url hint : String) (n : Nat)
    (hmiss : fs.existsPath (ospath_join cacheDir (cache_filename url hint)) = false)
    (hnet : net url = some n) (hsmall : n < 1000) :
    download_ocio_config net cacheDir fs url hint =
      ((fs.writeFile (ospath_join cacheDir (cache_filename url hint)) n).removeFile
        (ospath_join cacheDir (cache_filename url hint)), none, 1) ∧
    ((fs.writeFile (ospath_join cacheDir (cache_filename url hint)) n).removeFile
        (ospath_join cacheDir (cache_filename url hint))).existsPath
      (ospath_join cacheDir (cache_filename url hint)) = false := by
  refine ⟨?_, existsPath_removeFile ..⟩
  unfold download_ocio_config
  rw [hnet]
  simp [hmiss, hsmall]

set_option maxRecDepth 400000 in
/-- Witness for C8: a 10-byte body for URL `u` is deleted and resolution
reports `none`. -/
theorem download_undersized_deleted_witness :
    download_ocio_config (fun _ => some 10) "cache" (FS.mk []) "u" "config.ocio" =
      (((FS.mk []).writeFile (ospath_join "cache" (cache_filename "u" "config.ocio")) 10).removeFile
        (ospath_join "cache" (cache_filename "u" "config.ocio")), none, 1) ∧
    (((FS.mk []).writeFile (ospath_join "cache" (cache_filename "u" "config.ocio")) 10).removeFile
        (ospath_join "cache" (cache_filename "u" "config.ocio"))).existsPath
      (ospath_join "cache" (cache_filename "u" "config.ocio")) = false :=
  download_undersized_deleted (fun _ => some 10) "cache" (FS.mk []) "u" "config.ocio" 10
    (by decide) rfl (by decide)

theorem tensor_to_numpy_length (t : NDArray) :
    (tensor_to_numpy t).data.length = t.data.length := by
  rw [tensor_to_numpy_data, List.length_map]

theorem flatten3_dvd (xs : List (ℝ × ℝ × ℝ)) : 3 ∣ (flatten3 xs).length :=
  ⟨xs.length, flatten3_length xs⟩

theorem matrix_transform_ok_of_dvd (b : NDArray) (m : Mat3) (h : 3 ∣ b.data.length) :
    matrix_transform b m =
      Except.ok ⟨b.shape, flatten3 ((chunk3 b.data).map (mat3apply m))⟩ := by
  unfold matrix_transform
  rw [if_pos (Nat.mod_eq_zero_of_dvd h)]

theorem convert_colorspace_isOk (b : NDArray) (input_cs output_cs : String)
    (h : 3 ∣ b.data.length) :
    ∃ r, convert_colorspace b input_cs output_cs = Except.ok r := by
  have hl : 3 ∣ (srgb_to_linear b).data.length := by
    simpa [srgb_to_linear] using h
  unfold convert_colorspace
  split_ifs
  · exact ⟨_, rfl⟩
  · rw [matrix_transform_ok_of_dvd _ _ hl]
    exact ⟨_, rfl⟩
  · rw [matrix_transform_ok_of_dvd _ _ h]
    exact ⟨_, rfl⟩
  · rw [matrix_transform_ok_of_dvd _ _ hl, except_bind_ok_eq,
      matrix_transform_ok_of_dvd _ _ (flatten3_dvd _)]
    exact ⟨_, rfl⟩
  · rw [matrix_transform_ok_of_dvd _ _ h]
    exact ⟨_, rfl⟩
  · exact ⟨_, rfl⟩

theorem tensorIndex_length (t : NDArray) (s0 : Nat) (stail : List Nat) (i : Nat)
    (hsh : t.shape = s0 :: stail)
    (hwf : t.data.length = t.shape.prod) (hi : i < s0) :
    (tensorIndex t i).data.length = stail.prod := by
  have hd : t.data.length = s0 * stail.prod := by
    rw [hwf, hsh, List.prod_cons]
  have h2 : i * stail.prod + stail.prod ≤ s0 * stail.prod := by
    have h3 : i + 1 ≤ s0 := hi
    calc i * stail.prod + stail.prod = (i + 1) * stail.prod := by ring
      _ ≤ s0 * stail.prod := Nat.mul_le_mul_right _ h3
  simp only [tensorIndex, hsh, List.tail_cons, List.length_take, List.length_drop]
  omega

/-- What the batch loop computes, given that every listed frame converts
without raising: it returns normally, appending to `saved_files` the path of
every frame whose write succeeded (in order) and to `conversion_infos` exactly
one entry per frame. -/
theorem processFrames_spec (env : SaveEnv) (images : NDArray)
    (prefixStr colorspace input_colorspace : String) (total : Nat)
    (l : List Nat) (files infos : List String)
    (hconv : ∀ i ∈ l, ∃ ci,
      convert_colorspace (tensor_to_numpy (tensorIndex images i)) input_colorspace colorspace =
        Except.ok ci) :
    processFrames env images prefixStr colorspace input_colorspace total l (files, infos) =
      Except.ok
        (files ++ (l.filter (fun i => (env.write (framePath env prefixStr i)).1)).map
            (framePath env prefixStr),
         infos ++ l.map (frameEntry env images prefixStr colorspace input_colorspace total)) := by
  induction l generalizing files infos with
  | nil => simp [processFrames]
  | cons i rest ih =>
    obtain ⟨ci, hci⟩ := hconv i (List.mem_cons_self i rest)
    have hrest : ∀ j ∈ rest, ∃ cj,
        convert_colorspace (tensor_to_numpy (tensorIndex images j)) input_colorspace colorspace =
          Except.ok cj :=
      fun j hj => hconv j (List.mem_cons_of_mem i hj)
    have hentry : frameEntry env images prefixStr colorspace input_colorspace total i =
        if (env.write (framePath env prefixStr i)).1 then
          frameOkMsg i total ci.2 (env.write (framePath env prefixStr i)).2
        else
          frameErrMsg i total (env.write (framePath env prefixStr i)).2 := by
      simp [frameEntry, convDesc, hci]
    by_cases hw : (env.write (framePath env prefixStr i)).1 = true
    · simp only [processFrames, hci, except_bind_ok_eq]
      rw [if_pos hw, ih _ _ hrest]
      simp [hentry, hw, List.filter_cons, List.append_assoc]
    · simp only [processFrames, hci, except_bind_ok_eq]
      rw [if_neg hw, ih _ _ hrest]
      simp [hentry, hw, List.filter_cons, List.append_assoc]

/-- C6: a batch save of `N > 1` frames in which the EXR write fails for frame
`k` (and every frame converts without raising) still returns normally with a
report of exactly `N` entries, one per frame; entry `k` is the error entry for
frame `k`; and the primary returned path is the path of the first frame whose
write succeeded, or `""` when every write failed. -/
theorem save_batch_report (env : SaveEnv) (images : NDArray)
    (prefixStr colorspace compression pixel_type input_colorspace src cpath curl cpreset : String)
    (N k : Nat)
    (hoiio : env.oiioAvailable = true)
    (hshape : images.shape.length = 4)
    (hN : images.shape.headD 0 = N)
    (hN1 : 1 < N)
    (hconv : ∀ i ∈ List.range N, ∃ ci,
      convert_colorspace (tensor_to_numpy (tensorIndex images i)) input_colorspace colorspace =
        Except.ok ci)
    (hk : k < N)
    (hfail : (env.write (framePath env prefixStr k)).1 = false) :
    save_aces_exr env images prefixStr colorspace compression pixel_type input_colorspace
        src cpath curl cpreset =
      Except.ok
        ((((List.range N).filter (fun i => (env.write (framePath env prefixStr i)).1)).map
            (framePath env prefixStr)).headD "",
          String.intercalate "\n"
            ((List.range N).map
              (frameEntry env images prefixStr colorspace input_colorspace N))) ∧
    ((List.range N).map (frameEntry env images prefixStr colorspace input_colorspace N)).length =
      N ∧
    ((List.range N).map (frameEntry env images prefixStr colorspace input_colorspace N))[k]? =
      some (frameErrMsg k N (env.write (framePath env prefixStr k)).2) := by
  refine ⟨?_, by rw [List.length_map, List.length_range], ?_⟩
  · unfold save_aces_exr
    rw [if_neg (by simp [hoiio]), if_pos ⟨hshape, hN ▸ hN1⟩, hN,
      processFrames_spec env images prefixStr colorspace input_colorspace N _ [] [] hconv]
    simp
  · simp [List.getElem?_map, List.getElem?_range, hk, frameEntry, hfail]

/-- C10: a 4-dimensional input with batch size exactly 1 takes the
single-image path: the output file is `<prefix>.exr` (not `<prefix>_00000.exr`)
and the single report entry carries no `Frame i/N` counter. -/
theorem save_single_when_batch1 (env : SaveEnv) (images : NDArray)
    (prefixStr colorspace compression pixel_type input_colorspace src cpath curl cpreset : String)
    (arr : NDArray) (info : String)
    (hoiio : env.oiioAvailable = true)
    (hshape : images.shape.length = 4)
    (h1 : images.shape.headD 0 = 1)
    (hconv : convert_colorspace (tensor_to_numpy (tensorIndex images 0))
      input_colorspace colorspace = Except.ok (arr, info)) :
    save_aces_exr env images prefixStr colorspace compression pixel_type input_colorspace
        src cpath curl cpreset =
      Except.ok
        (if (env.write (ospath_join env.outputDir (prefixStr ++ ".exr"))).1 then
            ospath_join env.outputDir (prefixStr ++ ".exr")
          else "",
         if (env.write (ospath_join env.outputDir (prefixStr ++ ".exr"))).1 then
            info ++ " -> " ++ (env.write (ospath_join env.outputDir (prefixStr ++ ".exr"))).2
          else
            "ОШИБКА - " ++ (env.write (ospath_join env.outputDir (prefixStr ++ ".exr"))).2) := by
  unfold save_aces_exr
  rw [if_neg (by simp [hoiio]), if_neg (fun hc => absurd (h1 ▸ hc.2) (lt_irrefl 1)),
    if_pos hshape, hconv]
  by_cases hw : (env.write (ospath_join env.outputDir (prefixStr ++ ".exr"))).1 = true
  · rw [except_map_ok_eq]
    simp [hw]
  · rw [except_map_ok_eq]
    simp [hw]

/-- C1 (amended): whenever each processed frame's sample count is a multiple
of 3 (true of every RGB image tensor), `save_aces_exr` never raises: it
returns a `(path, report)` pair for every environment, every declared
input/output color space and every config source — config-resolution failures,
unsupported color pairs and per-frame write failures included. -/
theorem save_aces_exr_total (env : SaveEnv) (images : NDArray)
    (prefixStr colorspace compression pixel_type input_colorspace src cpath curl cpreset : String)
    (hwf : images.data.length = images.shape.prod)
    (h4 : images.shape.length = 4 → 3 ∣ images.shape.tail.prod)
    (hn4 : images.shape.length ≠ 4 → 3 ∣ images.data.length) :
    (save_aces_exr env images prefixStr colorspace compression pixel_type input_colorspace
      src cpath curl cpreset).isOk = true := by
  unfold save_aces_exr
  by_cases hoiio : env.oiioAvailable = false
  · rw [if_pos hoiio]
    rfl
  rw [if_neg hoiio]
  by_cases hbatch : images.shape.length = 4 ∧ 1 < images.shape.headD 0
  · rw [if_pos hbatch]
    obtain ⟨hlen4, hgt⟩ := hbatch
    obtain ⟨s0, stail, hsh⟩ : ∃ s0 stail, images.shape = s0 :: stail := by
      cases hs : images.shape with
      | nil => rw [hs] at hlen4; simp at hlen4
      | cons a t => exact ⟨a, t, rfl⟩
    have hdvd : 3 ∣ stail.prod := by
      have := h4 hlen4
      rwa [hsh, List.tail_cons] at this
    have hs0 : images.shape.headD 0 = s0 := by rw [hsh]; rfl
    have hconv : ∀ i ∈ List.range (images.shape.headD 0), ∃ ci,
        convert_colorspace (tensor_to_numpy (tensorIndex images i)) input_colorspace
          colorspace = Except.ok ci := by
      intro i hi
      apply convert_colorspace_isOk
      rw [tensor_to_numpy_length,
        tensorIndex_length images s0 stail i hsh hwf (by rw [← hs0]; exact List.mem_range.mp hi)]
      exact hdvd
    rw [processFrames_spec env images prefixStr colorspace input_colorspace _ _ [] [] hconv]
    rfl
  · rw [if_neg hbatch]
    have hdvd : 3 ∣ (tensor_to_numpy
        (if images.shape.length = 4 then tensorIndex images 0 else images)).data.length := by
      rw [tensor_to_numpy_length]
      by_cases hlen4 : images.shape.length = 4
      · rw [if_pos hlen4]
        obtain ⟨s0, stail, hsh⟩ : ∃ s0 stail, images.shape = s0 :: stail := by
          cases hs : images.shape with
          | nil => rw [hs] at hlen4; simp at hlen4
          | cons a t => exact ⟨a, t, rfl⟩
        have hs0le : s0 ≤ 1 := by
          by_contra hgt
          exact hbatch ⟨hlen4, by rw [hsh]; simpa using Nat.lt_of_not_le hgt⟩
        have hdvd : 3 ∣ stail.prod := by
          have := h4 hlen4
          rwa [hsh, List.tail_cons] at this
        rcases Nat.le_one_iff_eq_zero_or_eq_one.mp hs0le with rfl | rfl
        · have hd0 : images.data.length = 0 := by
            rw [hwf, hsh, List.prod_cons, Nat.zero_mul]
          simp [tensorIndex, hsh, List.length_take, List.length_drop, hd0]
        · rw [tensorIndex_length images 1 stail 0 hsh hwf Nat.zero_lt_one]
          exact hdvd
      · rw [if_neg hlen4]
        exact hn4 hlen4
    obtain ⟨r, hr⟩ := convert_colorspace_isOk _ input_colorspace colorspace hdvd
    rw [hr, except_map_ok_eq]
    rfl

/-- The environment used by the concrete witnesses: the imaging library is
available, the cache is empty, the network is down, and the EXR writer
succeeds on every path. -/
def envStub : SaveEnv :=
  ⟨true, ⟨[]⟩, fun _ => none, "cache", "out", "/root",
    fun _ => (true, "EXR ACES2065-1 (half, zip, range: [0.000, 1.000])")⟩

/-- An environment whose EXR writer fails on every path. -/
def envFail : SaveEnv :=
  ⟨true, ⟨[]⟩, fun _ => none, "cache", "out", "/root",
    fun _ => (false, "Ошибка записи EXR данных")⟩

/-- Witness for C1's amended theorem: a well-formed `(1, 3)`-shaped tensor
(3 samples) under the `(sRGB, ACES2065-1)` pair saves without raising. -/
theorem save_aces_exr_total_witness :
    (save_aces_exr envStub ⟨[1, 3], [0, 0, 0]⟩ "aces_render" "ACES2065-1" "zip" "half"
      "sRGB" "Local Path" "" "" "ACES 1.3 CG Config").isOk = true :=
  save_aces_exr_total envStub ⟨[1, 3], [0, 0, 0]⟩ "aces_render" "ACES2065-1" "zip" "half"
    "sRGB" "Local Path" "" "" "ACES 1.3 CG Config" (by decide)
    (fun h => absurd h (by decide)) (fun _ => by decide)

/-- Counterexample to C1 as stated: a `(1, 2, 2)`-shaped tensor holds 4
samples, so with the supported pair `(Linear sRGB, ACES2065-1)` the conversion
reaches `image.reshape(-1, 3)`, which raises `ValueError: cannot reshape` —
the exception escapes `save_aces_exr` uncaught, so the save operation does
*not* return a `(path, report)` pair for every input tensor. -/
theorem save_aces_exr_raises :
    (save_aces_exr envStub ⟨[1, 2, 2], [1, 1, 1, 1]⟩ "aces_render" "ACES2065-1" "zip" "half"
      "Linear sRGB" "Local Path" "" "" "ACES 1.3 CG Config").isOk = false := by
  simp [save_aces_exr, envStub, convert_colorspace, tensor_to_numpy, squeeze0,
    matrix_transform, srgb_to_linear]

/-- Witness for C6 at a concrete 2-frame batch whose writes all fail: the
report has 2 entries, entry 0 is the error entry, and the primary path is
`""`. -/
theorem save_batch_report_witness :
    save_aces_exr envFail ⟨[2, 1, 1, 3], [0, 0, 0, 0, 0, 0]⟩ "aces_render" "ACES2065-1" "zip"
        "half" "ACES2065-1" "Local Path" "" "" "ACES 1.3 CG Config" =
      Except.ok
        ((((List.range 2).filter
              (fun i => (envFail.write (framePath envFail "aces_render" i)).1)).map
            (framePath envFail "aces_render")).headD "",
          String.intercalate "\n"
            ((List.range 2).map
              (frameEntry envFail ⟨[2, 1, 1, 3], [0, 0, 0, 0, 0, 0]⟩ "aces_render"
                "ACES2065-1" "ACES2065-1" 2))) ∧
    ((List.range 2).map (frameEntry envFail ⟨[2, 1, 1, 3], [0, 0, 0, 0, 0, 0]⟩ "aces_render"
        "ACES2065-1" "ACES2065-1" 2)).length = 2 ∧
    ((List.range 2).map (frameEntry envFail ⟨[2, 1, 1, 3], [0, 0, 0, 0, 0, 0]⟩ "aces_render"
        "ACES2065-1" "ACES2065-1" 2))[0]? =
      some (frameErrMsg 0 2 (envFail.write (framePath envFail "aces_render" 0)).2) :=
  save_batch_report envFail ⟨[2, 1, 1, 3], [0, 0, 0, 0, 0, 0]⟩ "aces_render" "ACES2065-1"
    "zip" "half" "ACES2065-1" "Local Path" "" "" "ACES 1.3 CG Config" 2 0 rfl rfl rfl
    (by norm_num) (fun i _ => ⟨_, rfl⟩) (by norm_num) rfl

/-- Witness for C10 at a concrete `(1, 1, 1, 3)` tensor: the single-image path
is taken, the file is `out/aces_render.exr`, and the report entry has no frame
counter. -/
theorem save_single_when_batch1_witness :
    save_aces_exr envStub ⟨[1, 1, 1, 3], [0, 0, 0]⟩ "aces_render" "ACES2065-1" "zip" "half"
        "ACES2065-1" "Local Path" "" "" "ACES 1.3 CG Config" =
      Except.ok
        (if (envStub.write (ospath_join envStub.outputDir ("aces_render" ++ ".exr"))).1 then
            ospath_join envStub.outputDir ("aces_render" ++ ".exr")
          else "",
         if (envStub.write (ospath_join envStub.outputDir ("aces_render" ++ ".exr"))).1 then
            "Без конвертации" ++ " -> " ++
              (envStub.write (ospath_join envStub.outputDir ("aces_render" ++ ".exr"))).2
          else
            "ОШИБКА - " ++
              (envStub.write (ospath_join envStub.outputDir ("aces_render" ++ ".exr"))).2) :=
  save_single_when_batch1 envStub ⟨[1, 1, 1, 3], [0, 0, 0]⟩ "aces_render" "ACES2065-1" "zip"
    "half" "ACES2065-1" "Local Path" "" "" "ACES 1.3 CG Config"
    (tensor_to_numpy (tensorIndex ⟨[1, 1, 1, 3], [0, 0, 0]⟩ 0)) "Без конвертации"
    rfl rfl rfl rfl

end ACESEXR
